import Mathlib

/-!
Shallow embedding of the motion-detector program in src/detector.py.

The program watches cameras, computes a per-frame motion score, and controls
a remote recorder through StartTrack and StopTrack HTTP calls.  Shared state
per camera consists of the globals recording_state (a boolean) and
last_motion_time (a timestamp); a watchdog thread per active recording
polls and stops the recording after a no-motion timeout.

Timestamps and motion scores are modelled as integers (the code uses floats;
integer time points and areas suffice for every claim and keep the model
executable in the kernel).  The quiet-background comparison
motion_area < threshold * 0.1 of line 143 is expressed exactly over the
integers as 10 * motion_area < threshold.  HTTP calls are modelled by a
boolean outcome parameter (true when the request returns, false when it
raises an exception); each issued call is logged with its track id.
-/

/-- Static per-camera configuration (from config.yaml): the recorder channel
number, the motion-area threshold, and the no-motion timeout. -/
structure Camera where
  nvr_channel : Nat
  threshold : ℤ
  no_motion_timeout : ℤ
deriving Repr, DecidableEq

/-- Track id of a camera, as computed at lines 59 and 82 of detector.py:
nvr_channel * 100 + 1. -/
def track_id (cam : Camera) : Nat :=
  cam.nvr_channel * 100 + 1

/-- Mutable per-camera system state: the globals recording_state and
last_motion_time, the number of live watchdog threads spawned for this
camera, and logs of the track ids of every StartTrack and StopTrack HTTP
call issued (most recent first). -/
structure SysState where
  recording : Bool
  lastMotion : ℤ
  watchdogs : Nat
  starts : List Nat
  stops : List Nat
deriving Repr, DecidableEq

/-- Initial state: the defaultdict defaults, recording_state false and
last_motion_time 0.0, no watchdog, no calls issued. -/
def initState : SysState :=
  { recording := false, lastMotion := 0, watchdogs := 0, starts := [], stops := [] }

/-- Embedding of stop_record (detector.py lines 39-47).  The StopTrack PUT
is always issued; when it returns (stopOk = true) recording_state is set to
false, and when it raises (stopOk = false) the except handler only logs, so
recording_state keeps its previous value. -/
def stop_record (tid : Nat) (stopOk : Bool) (s : SysState) : SysState :=
  let s1 := { s with stops := tid :: s.stops }
  if stopOk then { s1 with recording := false } else s1

/-- Embedding of send_nvr_record (detector.py lines 49-72) for one call with
timestamp now.  Return early if recording_state is already true, or if
now - last_motion_time < COOLDOWN.  Otherwise issue the StartTrack PUT: when
it returns (startOk = true) set recording_state true, set last_motion_time
to now, and spawn the watchdog thread; when it raises, return after logging
with no state change. -/
def send_nvr_record (cooldown : ℤ) (cam : Camera) (now : ℤ) (startOk : Bool)
    (s : SysState) : SysState :=
  if s.recording then s
  else if now - s.lastMotion < cooldown then s
  else
    let s1 := { s with starts := track_id cam :: s.starts }
    if startOk then
      { s1 with recording := true, lastMotion := now, watchdogs := s1.watchdogs + 1 }
    else s1

/-- Embedding of one iteration of the monitor_no_motion_stop loop
(detector.py lines 75-85) at timestamp now.  When no watchdog thread is
live the event is a no-op.  Otherwise the loop condition is re-checked: if
recording_state has become false the thread exits; if
now - last_motion_time > no_motion_timeout the thread calls stop_record and
then breaks out of the loop on either outcome of the call; otherwise it
sleeps and polls again. -/
def monitor_no_motion_step (cam : Camera) (now : ℤ) (stopOk : Bool)
    (s : SysState) : SysState :=
  if s.watchdogs = 0 then s
  else if s.recording = false then { s with watchdogs := s.watchdogs - 1 }
  else if now - s.lastMotion > cam.no_motion_timeout then
    { stop_record (track_id cam) stopOk s with watchdogs := s.watchdogs - 1 }
  else s

/-- Embedding of the motion-dispatch block of CameraProcessor.process
(detector.py lines 137-141) for a frame with motion area area at timestamp
now.  When the area exceeds the threshold, the spawned send_nvr_record call
runs (reading the previous last_motion_time), and line 141 then sets
last_motion_time to now unconditionally. -/
def motion_dispatch (cooldown : ℤ) (cam : Camera) (now area : ℤ) (startOk : Bool)
    (s : SysState) : SysState :=
  if area > cam.threshold then
    { send_nvr_record cooldown cam now startOk s with lastMotion := now }
  else s

/-- Atomic events delivered to the per-camera shared state: a processed
frame carrying its timestamp, motion area, and StartTrack outcome; or one
watchdog poll iteration carrying its timestamp and StopTrack outcome. -/
inductive Ev where
  | motion (now area : ℤ) (startOk : Bool)
  | poll (now : ℤ) (stopOk : Bool)
deriving Repr, DecidableEq

/-- One event applied to the shared state. -/
def step (cooldown : ℤ) (cam : Camera) (s : SysState) : Ev → SysState
  | Ev.motion now area startOk => motion_dispatch cooldown cam now area startOk s
  | Ev.poll now stopOk => monitor_no_motion_step cam now stopOk s

/-- A sequence of events applied in order to the shared state. -/
def run (cooldown : ℤ) (cam : Camera) (s : SysState) : List Ev → SysState
  | [] => s
  | e :: es => run cooldown cam (step cooldown cam s e) es

/-- Demo camera used in concrete instances: channel 1, threshold 500,
no-motion timeout 10. -/
def cam0 : Camera :=
  { nvr_channel := 1, threshold := 500, no_motion_timeout := 10 }

/-- State of one CameraProcessor (detector.py lines 88-96): the reference
frame (None before the first processed frame), the frame counter, and the
per-camera shared recording state.  Frames are abstract values of a type F
(the greyscaled, blurred images). -/
structure DetState (F : Type) where
  ref : Option F
  frame_count : Nat
  shared : SysState

/-- Embedding of one iteration of the CameraProcessor.process loop body
(detector.py lines 118-147) for a successfully read frame whose greyscaled,
blurred form is gray, at timestamp now.  The frame counter is incremented;
on the first frame the reference is set and the iteration ends (line 129).
Otherwise the motion area is computed from the reference and the current
frame by the external differencing pipeline motionArea (lines 131-136), the
motion-dispatch block runs (lines 137-141), and the reference is replaced
by the current frame when the frame counter is a multiple of 300 or the
area is below a tenth of the threshold (lines 143-145, the comparison
motion_area < threshold * 0.1 written over the integers as
10 * motion_area < threshold). -/
def process_frame {F : Type} (cooldown : ℤ) (cam : Camera) (motionArea : F → F → ℤ)
    (gray : F) (now : ℤ) (startOk : Bool) (d : DetState F) : DetState F :=
  let d1 : DetState F := { d with frame_count := d.frame_count + 1 }
  match d1.ref with
  | none => { d1 with ref := some gray }
  | some r =>
    let area := motionArea r gray
    let d2 : DetState F := { d1 with shared := motion_dispatch cooldown cam now area startOk d1.shared }
    if d2.frame_count % 300 = 0 ∨ 10 * area < cam.threshold then
      { d2 with ref := some gray }
    else d2

/-- Program counter of one thread running send_nvr_record, one position per
suspension-separated region of detector.py lines 51-72: the read of
recording_state at line 53, the read of last_motion_time at line 56, the
StartTrack PUT with the subsequent state writes and watchdog spawn at lines
63-72, and termination. -/
inductive SendPc where
  | checkRec
  | checkCooldown
  | callStart
  | done
deriving Repr, DecidableEq

/-- One thread executing send_nvr_record: its program counter, the
timestamp it read at line 51, and the outcome its StartTrack PUT would
have. -/
structure SendThread where
  pc : SendPc
  now : ℤ
  startOk : Bool
deriving Repr, DecidableEq

/-- One atomic step of a send_nvr_record thread against the shared state.
The steps partition detector.py lines 53-72 exactly as the interpreter may
interleave them: the recording_state check (line 53), the cooldown check
(line 56), and the StartTrack call with its writes (lines 63-72).  The
unsynchronized shared reads and writes are the point: no lock is taken
anywhere in detector.py. -/
def send_thread_step (cooldown : ℤ) (cam : Camera) (t : SendThread)
    (s : SysState) : SendThread × SysState :=
  match t.pc with
  | SendPc.checkRec =>
      if s.recording then ({ t with pc := SendPc.done }, s)
      else ({ t with pc := SendPc.checkCooldown }, s)
  | SendPc.checkCooldown =>
      if t.now - s.lastMotion < cooldown then ({ t with pc := SendPc.done }, s)
      else ({ t with pc := SendPc.callStart }, s)
  | SendPc.callStart =>
      let s1 := { s with starts := track_id cam :: s.starts }
      if t.startOk then
        ({ t with pc := SendPc.done },
         { s1 with recording := true, lastMotion := t.now, watchdogs := s1.watchdogs + 1 })
      else ({ t with pc := SendPc.done }, s1)
  | SendPc.done => (t, s)

/-- Two send_nvr_record threads racing on one camera: thread A, thread B,
and the shared per-camera state. -/
structure RaceState where
  tA : SendThread
  tB : SendThread
  shared : SysState
deriving Repr, DecidableEq

/-- One scheduler choice: run one atomic step of thread A (pickA = true) or
of thread B. -/
def race_step (cooldown : ℤ) (cam : Camera) (r : RaceState) (pickA : Bool) :
    RaceState :=
  if pickA then
    let p := send_thread_step cooldown cam r.tA r.shared
    { r with tA := p.1, shared := p.2 }
  else
    let p := send_thread_step cooldown cam r.tB r.shared
    { r with tB := p.1, shared := p.2 }

/-- A schedule applied from a race state: the scheduler choices in order. -/
def race_run (cooldown : ℤ) (cam : Camera) (r : RaceState) : List Bool → RaceState
  | [] => r
  | c :: cs => race_run cooldown cam (race_step cooldown cam r c) cs

/-- Two concurrent motion events at time 1000, both with a succeeding
StartTrack, delivered on an idle camera in its initial state. -/
def raceInit : RaceState :=
  { tA := { pc := SendPc.checkRec, now := 1000, startOk := true }
  , tB := { pc := SendPc.checkRec, now := 1000, startOk := true }
  , shared := initState }

/-- Demo state of a camera that is recording: watchdog thread live, last
motion at time 1000, the one StartTrack that began the episode logged. -/
def demoRec : SysState :=
  { recording := true, lastMotion := 1000, watchdogs := 1
  , starts := [track_id cam0], stops := [] }

/-- Demo state of an idle camera whose last motion event was at time 1000
and whose last start attempt failed. -/
def demoIdle : SysState :=
  { recording := false, lastMotion := 1000, watchdogs := 0
  , starts := [track_id cam0], stops := [] }

/-- C2: while recording_state is true for a camera, no event (a delivered
motion event running send_nvr_record, or a watchdog poll) issues a
StartTrack call: the start log is unchanged, so over any sequence of motion
events the number of StartTrack calls issued while isRecording is true is
zero. -/
theorem c2_no_start_while_recording (cooldown : ℤ) (cam : Camera) (s : SysState)
    (e : Ev) (h : s.recording = true) :
    (step cooldown cam s e).starts = s.starts := by
  cases e with
  | motion now area startOk =>
      by_cases hA : area > cam.threshold
      · simp [step, motion_dispatch, send_nvr_record, hA, h]
      · simp [step, motion_dispatch, hA]
  | poll now stopOk =>
      by_cases h0 : s.watchdogs = 0
      · simp [step, monitor_no_motion_step, h0]
      · by_cases ht : now - s.lastMotion > cam.no_motion_timeout
        · cases stopOk <;>
            simp [step, monitor_no_motion_step, h0, h, ht, stop_record]
        · simp [step, monitor_no_motion_step, h0, h, ht]

/-- C2 witness: a motion event with score 600 above the threshold 500,
delivered while the demo camera is recording, leaves the start log
unchanged. -/
theorem c2_no_start_while_recording_witness :
    demoRec.recording = true
      ∧ (step 30 cam0 demoRec (Ev.motion 1005 600 true)).starts = demoRec.starts :=
  ⟨rfl, c2_no_start_while_recording 30 cam0 demoRec (Ev.motion 1005 600 true) rfl⟩

/-- C5: for a camera that is not recording, a motion event whose timestamp
is within the cooldown of the previous last_motion_time value issues no
StartTrack call (the start log is unchanged). -/
theorem c5_cooldown_suppresses_start (cooldown : ℤ) (cam : Camera) (s : SysState)
    (now area : ℤ) (startOk : Bool) (hrec : s.recording = false)
    (hcd : now - s.lastMotion < cooldown) :
    (motion_dispatch cooldown cam now area startOk s).starts = s.starts := by
  by_cases hA : area > cam.threshold
  · simp [motion_dispatch, send_nvr_record, hA, hrec, hcd]
  · simp [motion_dispatch, hA]

/-- C5 witness: the demo idle camera saw its last motion at time 1000; a
motion event with score 600 at time 1005 is inside the cooldown 30 and
issues no StartTrack call. -/
theorem c5_cooldown_suppresses_start_witness :
    demoIdle.recording = false
      ∧ (1005 : ℤ) - demoIdle.lastMotion < 30
      ∧ (motion_dispatch 30 cam0 1005 600 true demoIdle).starts = demoIdle.starts :=
  ⟨rfl, by decide,
    c5_cooldown_suppresses_start 30 cam0 demoIdle 1005 600 true rfl (by decide)⟩

/-- C6: every processed frame whose motion area strictly exceeds the
threshold sets last_motion_time to the current time, whatever the outcome
of the dispatched send_nvr_record call (recorded, suppressed, or failed). -/
theorem c6_lastMotion_updated (cooldown : ℤ) (cam : Camera) (s : SysState)
    (now area : ℤ) (startOk : Bool) (hA : area > cam.threshold) :
    (motion_dispatch cooldown cam now area startOk s).lastMotion = now := by
  simp [motion_dispatch, hA]

/-- C6 witness: a motion event with score 600 at time 1005 on the recording
demo camera (where the start is suppressed) still moves last_motion_time to
1005. -/
theorem c6_lastMotion_updated_witness :
    (600 : ℤ) > cam0.threshold
      ∧ (motion_dispatch 30 cam0 1005 600 true demoRec).lastMotion = 1005 :=
  ⟨by decide, c6_lastMotion_updated 30 cam0 demoRec 1005 600 true (by decide)⟩

/-- C1 counterexample: recording starts at time 1000; the watchdog poll at
time 1020 observes 1020 - 1000 = 20 above the no-motion timeout 10 and
issues a StopTrack call, which raises.  The assignment
recording_state = False at line 44 of detector.py sits inside the try block
after the PUT, so on failure recording_state stays true — contradicting the
claim that isRecording is set to false on any outcome of the call. -/
theorem c1_counterexample :
    (run 30 cam0 initState [Ev.motion 1000 600 true, Ev.poll 1020 false]).stops
        = [track_id cam0]
      ∧ (run 30 cam0 initState [Ev.motion 1000 600 true, Ev.poll 1020 false]).recording
        = true := by decide

/-- C1 (amended): when the watchdog observes now - last_motion_time above
the no-motion timeout while the camera is recording, it issues one StopTrack
call for the track of the camera and terminates on either outcome of the
call; recording_state is set to false exactly when the call returns, and it
keeps its value true when the call raises. -/
theorem c1_watchdog_stop (cam : Camera) (s : SysState) (now : ℤ) (stopOk : Bool)
    (hw : s.watchdogs = 1) (hrec : s.recording = true)
    (ht : now - s.lastMotion > cam.no_motion_timeout) :
    (monitor_no_motion_step cam now stopOk s).stops = track_id cam :: s.stops
      ∧ (monitor_no_motion_step cam now stopOk s).watchdogs = 0
      ∧ (monitor_no_motion_step cam now stopOk s).recording = !stopOk := by
  cases stopOk <;>
    simp [monitor_no_motion_step, stop_record, hw, hrec, ht]

/-- C1 witness: the demo recording camera polled at time 1020 with a failing
StopTrack call: the call is logged, the watchdog terminates, and
recording_state stays true. -/
theorem c1_watchdog_stop_witness :
    demoRec.watchdogs = 1
      ∧ demoRec.recording = true
      ∧ (1020 : ℤ) - demoRec.lastMotion > cam0.no_motion_timeout
      ∧ ((monitor_no_motion_step cam0 1020 false demoRec).stops
            = track_id cam0 :: demoRec.stops
         ∧ (monitor_no_motion_step cam0 1020 false demoRec).watchdogs = 0
         ∧ (monitor_no_motion_step cam0 1020 false demoRec).recording = !false) :=
  ⟨rfl, rfl, by decide,
    c1_watchdog_stop cam0 demoRec 1020 false rfl rfl (by decide)⟩

/-- C4 counterexample: a motion event with score 600 at time 1000 on the
freshly started camera issues a StartTrack call that raises; line 141 of
detector.py still sets last_motion_time to 1000.  The next qualifying
motion event (score 600 above the threshold 500) at time 1001 is then
suppressed by the cooldown check of line 56 (1001 - 1000 < 30), so it does
not retry StartTrack: the start log still holds the single failed call. -/
theorem c4_counterexample :
    (run 30 cam0 initState [Ev.motion 1000 600 false]).starts = [track_id cam0]
      ∧ (run 30 cam0 initState [Ev.motion 1000 600 false]).recording = false
      ∧ (run 30 cam0 initState
          [Ev.motion 1000 600 false, Ev.motion 1001 600 true]).starts
        = [track_id cam0] := by decide

/-- C4 (amended): when the StartTrack call of a motion event raises,
recording_state remains false, no watchdog thread is spawned, and
last_motion_time advances to the time of the event; a subsequent qualifying
motion event retries StartTrack exactly when it arrives at least a cooldown
after the failed event, and is suppressed by the cooldown check when it
arrives earlier. -/
theorem c4_failed_start (cooldown : ℤ) (cam : Camera) (s : SysState)
    (now area : ℤ) (hA : area > cam.threshold) (hrec : s.recording = false)
    (hcd : ¬ now - s.lastMotion < cooldown) :
    (motion_dispatch cooldown cam now area false s).starts = track_id cam :: s.starts
      ∧ (motion_dispatch cooldown cam now area false s).recording = false
      ∧ (motion_dispatch cooldown cam now area false s).watchdogs = s.watchdogs
      ∧ (motion_dispatch cooldown cam now area false s).lastMotion = now
      ∧ (∀ now2 area2 startOk2, area2 > cam.threshold →
          (now2 - now < cooldown →
            (motion_dispatch cooldown cam now2 area2 startOk2
                (motion_dispatch cooldown cam now area false s)).starts
              = (motion_dispatch cooldown cam now area false s).starts)
          ∧ (¬ now2 - now < cooldown →
            (motion_dispatch cooldown cam now2 area2 startOk2
                (motion_dispatch cooldown cam now area false s)).starts
              = track_id cam
                  :: (motion_dispatch cooldown cam now area false s).starts)) := by
  have h1 : motion_dispatch cooldown cam now area false s
      = { s with starts := track_id cam :: s.starts, lastMotion := now } := by
    simp [motion_dispatch, send_nvr_record, hA, hrec, hcd]
  refine ⟨by rw [h1], by rw [h1]; exact hrec, by rw [h1], by rw [h1], ?_⟩
  intro now2 area2 startOk2 hA2
  constructor
  · intro hcd2
    rw [h1]
    simp [motion_dispatch, send_nvr_record, hA2, hcd2, hrec]
  · intro hcd2
    rw [h1]
    cases startOk2 <;>
      simp [motion_dispatch, send_nvr_record, hA2, hcd2, hrec]

/-- C4 witness: from the initial state, a qualifying event at time 1000
with a failing StartTrack leaves the camera idle with no watchdog and
last_motion_time 1000; the retry condition then separates events before and
after time 1030 with cooldown 30. -/
theorem c4_failed_start_witness :
    (600 : ℤ) > cam0.threshold
      ∧ initState.recording = false
      ∧ ¬ (1000 : ℤ) - initState.lastMotion < 30
      ∧ ((motion_dispatch 30 cam0 1000 600 false initState).starts
            = track_id cam0 :: initState.starts
         ∧ (motion_dispatch 30 cam0 1000 600 false initState).recording = false
         ∧ (motion_dispatch 30 cam0 1000 600 false initState).watchdogs
            = initState.watchdogs
         ∧ (motion_dispatch 30 cam0 1000 600 false initState).lastMotion = 1000
         ∧ (∀ now2 area2 startOk2, area2 > cam0.threshold →
             (now2 - 1000 < 30 →
               (motion_dispatch 30 cam0 now2 area2 startOk2
                   (motion_dispatch 30 cam0 1000 600 false initState)).starts
                 = (motion_dispatch 30 cam0 1000 600 false initState).starts)
             ∧ (¬ now2 - 1000 < 30 →
               (motion_dispatch 30 cam0 now2 area2 startOk2
                   (motion_dispatch 30 cam0 1000 600 false initState)).starts
                 = track_id cam0
                     :: (motion_dispatch 30 cam0 1000 600 false initState).starts))) :=
  ⟨by decide, rfl, by decide,
    c4_failed_start 30 cam0 initState 1000 600 (by decide) rfl (by decide)⟩

/-- C3 counterexample: detector.py takes no lock anywhere; recording_state
and last_motion_time are plain global dictionaries.  Two motion events with
score above threshold arrive concurrently on the idle camera (raceInit) and
the scheduler interleaves their send_nvr_record threads so that both pass
the recording_state check of line 53 and the cooldown check of line 56
before either reaches the StartTrack PUT of line 63: two StartTrack calls
are issued in total, not exactly one. -/
theorem c3_counterexample :
    (race_run 30 cam0 raceInit
        [true, false, true, false, true, false]).shared.starts
      = [track_id cam0, track_id cam0] := by decide

/-- C3 (amended): the accesses to lastMotionAt and isRecording are not
protected by any mutual-exclusion discipline, so the number of StartTrack
calls issued for two concurrently arriving above-threshold motion events on
an idle camera depends on the interleaving: a schedule that lets one
send_nvr_record thread finish before the other reads recording_state issues
exactly one StartTrack call, while the schedule that interleaves the two
check phases before either StartTrack PUT issues two. -/
theorem c3_no_mutual_exclusion :
    (race_run 30 cam0 raceInit
        [true, true, true, false, false, false]).shared.starts.length = 1
      ∧ (race_run 30 cam0 raceInit
          [true, false, true, false, true, false]).shared.starts.length = 2 := by
  decide

/-- Invariant backing the amended C7, over the serialized event model: the
live-watchdog count never exceeds one, and an idle camera has no live
watchdog.  The second conjunct is what makes the first inductive:
send_nvr_record spawns a watchdog only after passing the recording_state
check, hence only from a state with no live watchdog. -/
def WatchdogInv (s : SysState) : Prop :=
  s.watchdogs ≤ 1 ∧ (s.recording = false → s.watchdogs = 0)

/-- One event preserves the watchdog invariant. -/
theorem watchdogInv_step (cooldown : ℤ) (cam : Camera) (s : SysState) (e : Ev)
    (h : WatchdogInv s) : WatchdogInv (step cooldown cam s e) := by
  obtain ⟨h1, h2⟩ := h
  unfold WatchdogInv
  cases e with
  | motion now area startOk =>
      by_cases hA : area > cam.threshold
      · by_cases hrec : s.recording = true
        · simp only [step, motion_dispatch, send_nvr_record, hA, hrec,
            if_true, if_pos]
          exact ⟨h1, fun hf => Bool.noConfusion hf⟩
        · simp only [Bool.not_eq_true] at hrec
          have hw0 : s.watchdogs = 0 := h2 hrec
          by_cases hcd : now - s.lastMotion < cooldown
          · simp [step, motion_dispatch, send_nvr_record, hA, hrec, hcd, hw0]
          · cases startOk <;>
              simp [step, motion_dispatch, send_nvr_record, hA, hrec, hcd, hw0]
      · simp only [step, motion_dispatch, hA, if_neg, if_false]
        exact ⟨h1, h2⟩
  | poll now stopOk =>
      by_cases h0 : s.watchdogs = 0
      · simp [step, monitor_no_motion_step, h0]
      · by_cases hrec : s.recording = true
        · by_cases ht : now - s.lastMotion > cam.no_motion_timeout
          · cases stopOk <;>
              simp [step, monitor_no_motion_step, h0, hrec, ht, stop_record] <;>
              omega
          · simp only [step, monitor_no_motion_step, h0, hrec, ht, if_neg,
              if_false, Bool.true_eq_false, if_pos]
            exact ⟨h1, id⟩
        · simp only [Bool.not_eq_true] at hrec
          exact absurd (h2 hrec) h0

/-- The watchdog invariant holds along any run from an invariant state. -/
theorem watchdogInv_run (cooldown : ℤ) (cam : Camera) (s : SysState)
    (evs : List Ev) (h : WatchdogInv s) :
    WatchdogInv (run cooldown cam s evs) := by
  induction evs generalizing s with
  | nil => exact h
  | cons e es ih => exact ih _ (watchdogInv_step cooldown cam s e h)

/-- C7 counterexample: the unsynchronized code does not bound the number of
live watchdogs by one.  Two motion events with score above threshold arrive
concurrently on the idle camera (raceInit, both StartTrack calls
succeeding) and the scheduler interleaves their send_nvr_record threads so
that both pass the checks of lines 53 and 56 before either reaches the
StartTrack PUT: after the first thread completes lines 63-72 one watchdog
is live, and the second thread then completes lines 63-72 as well and
spawns a second watchdog while the first is live — two live watchdogs for
one camera. -/
theorem c7_counterexample :
    (race_run 30 cam0 raceInit [true, false, true, false, true]).shared.watchdogs = 1
      ∧ (race_run 30 cam0 raceInit
          [true, false, true, false, true, false]).shared.watchdogs = 2 := by
  decide

/-- C7 (amended): when the motion events and watchdog polls of one camera
execute serially (each send_nvr_record invocation and each poll iteration
running to completion before the next event, the discipline the serialized
event model formalizes), at most one watchdog thread is live for the camera
at any time along every event sequence from the initial state; under
concurrent interleaving of two send_nvr_record invocations this bound can
be violated, as both can pass the recording_state check and each spawn a
watchdog. -/
theorem c7_at_most_one_watchdog (cooldown : ℤ) (cam : Camera) (evs : List Ev) :
    (run cooldown cam initState evs).watchdogs ≤ 1 :=
  (watchdogInv_run cooldown cam initState evs ⟨by decide, fun _ => rfl⟩).1

/-- Absorbing stuck state backing C9: the camera believes it is recording
but no watchdog thread is live any more. -/
def Stuck (s : SysState) : Prop :=
  s.recording = true ∧ s.watchdogs = 0

/-- One event keeps a stuck camera stuck and issues no HTTP call: motion
events return at the recording_state check of line 53 (only moving
last_motion_time), and no watchdog thread exists to poll. -/
theorem stuck_step (cooldown : ℤ) (cam : Camera) (s : SysState) (e : Ev)
    (h : Stuck s) :
    Stuck (step cooldown cam s e)
      ∧ (step cooldown cam s e).starts = s.starts
      ∧ (step cooldown cam s e).stops = s.stops := by
  obtain ⟨hrec, hw⟩ := h
  cases e with
  | motion now area startOk =>
      by_cases hA : area > cam.threshold
      · simp [step, motion_dispatch, send_nvr_record, hA, hrec, Stuck, hw]
      · simp [step, motion_dispatch, hA, Stuck, hrec, hw]
  | poll now stopOk =>
      simp [step, monitor_no_motion_step, hw, Stuck, hrec]

/-- A stuck camera stays stuck along any run, with no further HTTP call. -/
theorem stuck_run (cooldown : ℤ) (cam : Camera) (s : SysState) (evs : List Ev)
    (h : Stuck s) :
    Stuck (run cooldown cam s evs)
      ∧ (run cooldown cam s evs).starts = s.starts
      ∧ (run cooldown cam s evs).stops = s.stops := by
  induction evs generalizing s with
  | nil => exact ⟨h, rfl, rfl⟩
  | cons e es ih =>
      obtain ⟨h1, h2, h3⟩ := stuck_step cooldown cam s e h
      obtain ⟨g1, g2, g3⟩ := ih _ h1
      exact ⟨g1, g2.trans h2, g3.trans h3⟩

/-- C9: when the watchdog observes the no-motion timeout on a recording
camera and its StopTrack call raises, recording_state remains true while
the watchdog loop terminates, and along every subsequent sequence of events
no further StartTrack or StopTrack call is issued for the camera: its
recording control is stuck until restart. -/
theorem c9_failed_stop_sticks (cooldown : ℤ) (cam : Camera) (s : SysState)
    (now : ℤ) (hw : s.watchdogs = 1) (hrec : s.recording = true)
    (ht : now - s.lastMotion > cam.no_motion_timeout) :
    (monitor_no_motion_step cam now false s).recording = true
      ∧ (monitor_no_motion_step cam now false s).watchdogs = 0
      ∧ ∀ evs : List Ev,
          (run cooldown cam (monitor_no_motion_step cam now false s) evs).starts
            = (monitor_no_motion_step cam now false s).starts
          ∧ (run cooldown cam (monitor_no_motion_step cam now false s) evs).stops
            = (monitor_no_motion_step cam now false s).stops := by
  have h1 : (monitor_no_motion_step cam now false s).recording = true := by
    simp [monitor_no_motion_step, stop_record, hw, hrec, ht]
  have h2 : (monitor_no_motion_step cam now false s).watchdogs = 0 := by
    simp [monitor_no_motion_step, stop_record, hw, hrec, ht]
  exact ⟨h1, h2, fun evs =>
    (stuck_run cooldown cam (monitor_no_motion_step cam now false s) evs
      ⟨h1, h2⟩).2⟩

/-- C9 witness: the demo recording camera polled at time 1020 with a
failing StopTrack call ends stuck, and (instantiating the run at a later
motion event and poll) issues no further call. -/
theorem c9_failed_stop_sticks_witness :
    demoRec.watchdogs = 1
      ∧ demoRec.recording = true
      ∧ (1020 : ℤ) - demoRec.lastMotion > cam0.no_motion_timeout
      ∧ ((monitor_no_motion_step cam0 1020 false demoRec).recording = true
         ∧ (monitor_no_motion_step cam0 1020 false demoRec).watchdogs = 0
         ∧ ∀ evs : List Ev,
            (run 30 cam0 (monitor_no_motion_step cam0 1020 false demoRec) evs).starts
              = (monitor_no_motion_step cam0 1020 false demoRec).starts
            ∧ (run 30 cam0 (monitor_no_motion_step cam0 1020 false demoRec) evs).stops
              = (monitor_no_motion_step cam0 1020 false demoRec).stops) :=
  ⟨rfl, rfl, by decide,
    c9_failed_stop_sticks 30 cam0 demoRec 1020 rfl rfl (by decide)⟩

/-- Demo detector state over integer frames: reference frame 7, five frames
seen, shared state fresh. -/
def demoDet : DetState ℤ :=
  { ref := some 7, frame_count := 5, shared := initState }

/-- Demo stand-in for the external differencing pipeline on integer frames:
the signed difference between the current frame and the reference. -/
def diffArea : ℤ → ℤ → ℤ :=
  fun r g => g - r

/-- C8: for every processed non-first frame, the reference frame is
replaced by the current greyscaled, blurred frame exactly when the
incremented frame counter is a multiple of 300 or the motion area is below
a tenth of the threshold, and is unchanged otherwise. -/
theorem c8_reference_refresh {F : Type} (cooldown : ℤ) (cam : Camera)
    (motionArea : F → F → ℤ) (gray : F) (now : ℤ) (startOk : Bool)
    (d : DetState F) (r : F) (href : d.ref = some r) :
    ((d.frame_count + 1) % 300 = 0 ∨ 10 * motionArea r gray < cam.threshold →
        (process_frame cooldown cam motionArea gray now startOk d).ref = some gray)
      ∧ (¬ ((d.frame_count + 1) % 300 = 0 ∨ 10 * motionArea r gray < cam.threshold) →
        (process_frame cooldown cam motionArea gray now startOk d).ref = d.ref) := by
  constructor <;> intro hc <;> simp [process_frame, href, hc]

/-- C8 witness: the demo detector at frame 6 sees a quiet frame (area 42,
a tenth of the threshold being 50) and adopts it as the new reference even
though 6 is not a multiple of 300. -/
theorem c8_reference_refresh_witness :
    demoDet.ref = some 7
      ∧ (((demoDet.frame_count + 1) % 300 = 0 ∨ 10 * diffArea 7 49 < cam0.threshold →
          (process_frame 30 cam0 diffArea 49 1000 true demoDet).ref = some 49)
         ∧ (¬ ((demoDet.frame_count + 1) % 300 = 0 ∨ 10 * diffArea 7 49 < cam0.threshold) →
          (process_frame 30 cam0 diffArea 49 1000 true demoDet).ref = demoDet.ref)) :=
  ⟨rfl, c8_reference_refresh 30 cam0 diffArea 49 1000 true demoDet 7 rfl⟩

/-- C10: with a non-negative threshold, a motion area above the threshold
can never be below a tenth of the threshold, so a frame that triggers a
motion event replaces the reference frame only when the frame counter is a
multiple of 300; off those frames the reference is unchanged. -/
theorem c10_motion_excludes_quiet {F : Type} (cooldown : ℤ) (cam : Camera)
    (motionArea : F → F → ℤ) (gray : F) (now : ℤ) (startOk : Bool)
    (d : DetState F) (r : F) (hth : 0 ≤ cam.threshold)
    (hA : motionArea r gray > cam.threshold) (href : d.ref = some r) :
    ¬ (10 * motionArea r gray < cam.threshold)
      ∧ ((d.frame_count + 1) % 300 ≠ 0 →
          (process_frame cooldown cam motionArea gray now startOk d).ref = d.ref) := by
  have hq : ¬ (10 * motionArea r gray < cam.threshold) := by
    intro hlt
    linarith
  refine ⟨hq, fun hm => ?_⟩
  simp [process_frame, href, hm, hq]

/-- C10 witness: the demo detector at frame 6 with motion area 600 above
the threshold 500: the quiet condition is excluded and the reference frame
stays 7. -/
theorem c10_motion_excludes_quiet_witness :
    (0 : ℤ) ≤ cam0.threshold
      ∧ diffArea 7 607 > cam0.threshold
      ∧ demoDet.ref = some 7
      ∧ (¬ (10 * diffArea 7 607 < cam0.threshold)
         ∧ ((demoDet.frame_count + 1) % 300 ≠ 0 →
            (process_frame 30 cam0 diffArea 607 1000 true demoDet).ref = demoDet.ref)) :=
  ⟨by decide, by decide, rfl,
    c10_motion_excludes_quiet 30 cam0 diffArea 607 1000 true demoDet 7
      (by decide) (by decide) rfl⟩
